import Mathlib

/-!
# cert-manager-webhook-conoha: the challenge solver of `main.go`

A shallow embedding of `main.go` and the properties of its `Present` / `CleanUp`
protocol.

Modelling conventions.

* The process environment is a function `Env` (`os.Getenv`, which yields `""` for an
  unset variable); the package-level variables are functions of it.
* The provider is a script `Nat → Reply`: the reply given to the k-th request that is
  sent.  Since the code is deterministic this covers every behaviour of the provider.
  The `Wire` also logs every request in the order it was sent.
* A `resty` request is kept as the code builds it: method, host URL, URL template, path
  parameters, headers and body.  `resty` and `gjson` are libraries outside the
  repository; a reply's body is kept in decoded form, holding what `gjson` reads of it.
* A Go map is `Option (String → Option entry)`; `none` is the `nil` map, which can be
  read but panics when it is written.
* `entriesLock` is left out: the embedding is sequential.
-/

namespace Conoha

/-! ## Go library functions used by `main.go` -/

/-- Pieces of `strings.SplitN(s, sep, n)` for a one-character separator and `n ≥ 0`,
on character lists: `acc` holds the current piece reversed. -/
def splitChars (sep : Char) : Nat → List Char → List Char → List (List Char)
  | 0, _, _ => []
  | 1, acc, rest => [acc.reverse ++ rest]
  | _ + 2, acc, [] => [acc.reverse]
  | n + 2, acc, c :: cs =>
    if c = sep then acc.reverse :: splitChars sep (n + 1) [] cs
    else splitChars sep (n + 2) (c :: acc) cs

/-- Go `strings.SplitN(s, sep, n)`: at most `n` pieces, the last one the unsplit rest. -/
def SplitN (s : String) (sep : Char) (n : Nat) : List String :=
  (splitChars sep n [] s.data).map String.mk

/-! ## The environment and the package-level variables -/

/-- Go `os.Getenv`. -/
abbrev Env := String → String

/-- Source: `getEnvOrDefault`. -/
def getEnvOrDefault (env : Env) (key : String) (dflt : String) : String :=
  let s := env key
  if s = "" then dflt else s

/-- Source: `GroupName = os.Getenv("GROUP_NAME")`. -/
def GroupName (env : Env) : String := env "GROUP_NAME"

/-- Source: `Region = getEnvOrDefault("CONOHA_REGION", "tyo1")`. -/
def Region (env : Env) : String := getEnvOrDefault env "CONOHA_REGION" "tyo1"

/-- Source: `TenantID = getEnvOrDefault("CONOHA_TENANT_ID", "")`. -/
def TenantID (env : Env) : String := getEnvOrDefault env "CONOHA_TENANT_ID" ""

/-- Source: `Username = getEnvOrDefault("CONOHA_USERNAME", "")`. -/
def Username (env : Env) : String := getEnvOrDefault env "CONOHA_USERNAME" ""

/-- Source: `Password = getEnvOrDefault("CONOHA_PASSWORD", "")`. -/
def Password (env : Env) : String := getEnvOrDefault env "CONOHA_PASSWORD" ""

/-! ## HTTP requests and replies -/

/-- The `Hash` bodies that `main.go` sends. -/
inductive Payload where
  | empty
  | auth (tenantId username password : String)
  | record (name type data : String) (ttl : Nat)
  deriving DecidableEq, Repr

/-- A request as handed to `resty`. -/
structure Request where
  method : String
  hostURL : String
  url : String
  pathParams : List (String × String)
  headers : List (String × String)
  body : Payload
  deriving DecidableEq, Repr

/-- One element of the `domains` array of a reply: its `name` and the string of its `id`. -/
structure Domain where
  name : String
  id : String
  deriving DecidableEq, Repr

/-- A decoded reply body: what `gjson` reads from it.  `accessTokenId` and `id` are the
strings at the paths `access.token.id` and `id` (`""` when absent), `domains` the
elements of the array `domains` that have a name. -/
structure Body where
  accessTokenId : String
  domains : List Domain
  id : String
  deriving DecidableEq, Repr

/-- The string of the `gjson` query `domains.#(name=="p").id`: the `id` of the first
element of `domains` whose name is `p`, and `""` when there is none. -/
def Body.domainIDByName (b : Body) (p : String) : String :=
  match b.domains.find? (fun d => d.name == p) with
  | some d => d.id
  | none => ""

/-- A `resty` response. -/
structure Response where
  StatusCode : Nat
  body : Body
  deriving DecidableEq, Repr

/-- The `resty` test `IsSuccess`: the status code is above 199 and below 300. -/
def Response.IsSuccess (r : Response) : Bool :=
  decide (199 < r.StatusCode) && decide (r.StatusCode < 300)

/-- What a `resty` call returns: an error `err`, or a response. -/
inductive Reply where
  | failed (err : String)
  | response (r : Response)
  deriving DecidableEq, Repr

/-- The network: the provider's reply to the k-th request, and the requests sent so far
(oldest first). -/
structure Wire where
  replies : Nat → Reply
  sent : List Request

/-- The wire before any request was sent. -/
def Wire.start (replies : Nat → Reply) : Wire := ⟨replies, []⟩

/-- The reply that the k-th request from now on will get. -/
def Wire.next (w : Wire) (k : Nat) : Reply := w.replies (w.sent.length + k)

/-- The wire after the request `rq` was sent. -/
def Wire.log (w : Wire) (rq : Request) : Wire := { w with sent := w.sent ++ [rq] }

/-- Send one request: it is logged and the provider's reply comes back. -/
def Wire.execute (w : Wire) (rq : Request) : Reply × Wire :=
  (w.replies w.sent.length, w.log rq)

/-- The requests sent on the way from the wire `before` to the wire `after`. -/
def Wire.issued (after before : Wire) : List Request :=
  after.sent.drop before.sent.length

/-- The part of a `resty.Client` that `main.go` sets. -/
structure Client where
  hostURL : String
  headers : List (String × String)
  deriving DecidableEq, Repr

/-- Source: `resty.New()`. -/
def Client.new : Client := ⟨"", []⟩

/-- The request `client.R()` with a method, a URL, path parameters and a body. -/
def Client.R (c : Client) (method url : String) (pathParams : List (String × String))
    (body : Payload) : Request :=
  ⟨method, c.hostURL, url, pathParams, c.headers, body⟩

/-! ## The solver -/

/-- Source: `type entry struct`. -/
structure entry where
  domainID : String
  recordID : String
  deriving DecidableEq, Repr

/-- Source: `type conohaDNSProviderSolver struct`; `entries` is `none` for the `nil` map. -/
structure conohaDNSProviderSolver where
  entries : Option (String → Option entry)

/-- Go `e, ok := c.entries[uid]`; a `nil` map has no entry. -/
def conohaDNSProviderSolver.lookup (c : conohaDNSProviderSolver) (uid : String) :
    Option entry :=
  match c.entries with
  | none => none
  | some m => m uid

/-- The fields of `v1alpha1.ChallengeRequest` that `main.go` reads. -/
structure ChallengeRequest where
  UID : String
  ResolvedFQDN : String
  Key : String
  deriving DecidableEq, Repr

/-- How a call ends: `nil`, an error, or a runtime panic. -/
inductive Outcome where
  | ok
  | error (msg : String)
  | panic (msg : String)
  deriving DecidableEq, Repr

/-- The result of `Present` or `CleanUp`: the outcome, the solver and the wire afterwards. -/
structure Run where
  outcome : Outcome
  solver : conohaDNSProviderSolver
  wire : Wire

/-- Source: `main`: panics without `GROUP_NAME`, else hands `&conohaDNSProviderSolver{}`
(all fields zero, so a `nil` map) to `cmd.RunWebhookServer`. -/
def main (env : Env) : Except String conohaDNSProviderSolver :=
  if GroupName env = "" then .error "GROUP_NAME must be specified"
  else .ok { entries := none }

/-- Source: `Initialize`: returns `nil` and changes nothing. -/
def Initialize (c : conohaDNSProviderSolver) : Outcome × conohaDNSProviderSolver :=
  (.ok, c)

/-- The token request of `getClient`. -/
def tokenRequest (env : Env) : Request :=
  Client.new.R "POST" ("https://identity." ++ Region env ++ ".conoha.io/v2.0/tokens") []
    (.auth (TenantID env) (Username env) (Password env))

/-- The client that `getClient` returns on the token response `r`: the host URL of the
DNS service and the three headers. -/
def dnsClient (env : Env) (r : Response) : Client :=
  { hostURL := "https://dns-service." ++ Region env ++ ".conoha.io"
    headers := [("Accept", "application/json"),
                ("Content-Type", "application/json"),
                ("X-Auth-Token", r.body.accessTokenId)] }

/-- Source: `getClient`. -/
def getClient (env : Env) (w : Wire) : Except String Client × Wire :=
  match w.execute (tokenRequest env) with
  | (.failed err, w) => (.error err, w)
  | (.response r, w) =>
    if !r.IsSuccess then
      (.error ("GetToken StatusCode: " ++ toString r.StatusCode), w)
    else
      (.ok (dnsClient env r), w)

/-- The domain-list request of `Present`. -/
def listRequest (client : Client) : Request :=
  client.R "GET" "/v1/domains" [] .empty

/-- The create-record request of `Present`. -/
def createRequest (client : Client) (domainID : String) (ch : ChallengeRequest) : Request :=
  client.R "POST" "/v1/domains/\x7bdomainID\x7d/records" [("domainID", domainID)]
    (.record ch.ResolvedFQDN "TXT" ch.Key 60)

/-- The delete-record request of `CleanUp`. -/
def deleteRequest (client : Client) (e : entry) : Request :=
  client.R "DELETE" "/v1/domain/\x7bdomainID\x7d/records/\x7brecordID\x7d"
    [("domainID", e.domainID), ("recordID", e.recordID)] .empty

/-- Source: `Present`. -/
def Present (env : Env) (c : conohaDNSProviderSolver) (ch : ChallengeRequest) (w : Wire) :
    Run :=
  match getClient env w with
  | (.error err, w) => ⟨.error err, c, w⟩
  | (.ok client, w) =>
    match w.execute (listRequest client) with
    | (.failed err, w) => ⟨.error err, c, w⟩
    | (.response r, w) =>
      if !r.IsSuccess then
        ⟨.error ("GetDomainList StatusCode: " ++ toString r.StatusCode), c, w⟩
      else
        match (SplitN ch.ResolvedFQDN '.' 2)[1]? with
        | none => ⟨.panic "index out of range [1] with length 1", c, w⟩
        | some parent =>
          let domainID := r.body.domainIDByName parent
          if domainID = "" then ⟨.error "domain not found", c, w⟩
          else
            match w.execute (createRequest client domainID ch) with
            | (.failed err, w) => ⟨.error err, c, w⟩
            | (.response r, w) =>
              if !r.IsSuccess then
                ⟨.error ("CreateRecord StatusCode: " ++ toString r.StatusCode), c, w⟩
              else
                match c.entries with
                | none => ⟨.panic "assignment to entry in nil map", c, w⟩
                | some m =>
                  ⟨.ok, { entries := some (Function.update m ch.UID
                            (some { domainID := domainID, recordID := r.body.id })) }, w⟩

/-- Source: `CleanUp`. -/
def CleanUp (env : Env) (c : conohaDNSProviderSolver) (ch : ChallengeRequest) (w : Wire) :
    Run :=
  match c.lookup ch.UID with
  | none => ⟨.error "no uid", c, w⟩
  | some e =>
    match getClient env w with
    | (.error err, w) => ⟨.error err, c, w⟩
    | (.ok client, w) =>
      match w.execute (deleteRequest client e) with
      | (.failed err, w) => ⟨.error err, c, w⟩
      | (.response r, w) =>
        if !r.IsSuccess then
          ⟨.error ("DeleteRecord StatusCode: " ++ toString r.StatusCode), c, w⟩
        else
          match c.entries with
          | none => ⟨.ok, c, w⟩
          | some m => ⟨.ok, { entries := some (Function.update m ch.UID none) }, w⟩

/-! ## Kinds of request -/

/-- A delete-record call. -/
def Request.isDelete (rq : Request) : Bool := rq.method == "DELETE"

/-- A domain-list call: `GET /v1/domains`. -/
def Request.isDomainList (rq : Request) : Bool :=
  rq.method == "GET" && rq.url == "/v1/domains"

/-- A create-record call: `POST /v1/domains/{domainID}/records`. -/
def Request.isCreateRecord (rq : Request) : Bool :=
  rq.method == "POST" && rq.url == "/v1/domains/\x7bdomainID\x7d/records"

/-- A call to the DNS service: one sent through the client of `getClient`. -/
def Request.isDNSService (rq : Request) : Bool :=
  "https://dns-service.".data.isPrefixOf rq.hostURL.data

/-! ## Sample data -/

/-- An environment with the group name and all credentials set. -/
def sampleEnv : Env := fun k =>
  if k = "GROUP_NAME" then "acme.example.com"
  else if k = "CONOHA_TENANT_ID" then "tenant"
  else if k = "CONOHA_USERNAME" then "user"
  else if k = "CONOHA_PASSWORD" then "secret"
  else ""

/-- An environment with the group name set and no credentials. -/
def noCredentialsEnv : Env := fun k =>
  if k = "GROUP_NAME" then "acme.example.com" else ""

/-- The provider that answers with the listed replies in turn and then stops answering. -/
def script (l : List Reply) : Nat → Reply :=
  fun k => l.getD k (.failed "connection refused")

/-- A reply with the given status and an empty body. -/
def statusReply (code : Nat) : Reply := .response ⟨code, ⟨"", [], ""⟩⟩

/-- A 200 reply to the token request. -/
def tokenReply : Reply := .response ⟨200, ⟨"tok", [], ""⟩⟩

/-- A 200 reply to the domain-list request. -/
def domainsReply (ds : List Domain) : Reply := .response ⟨200, ⟨"", ds, ""⟩⟩

/-- A 200 reply to the create-record request. -/
def recordReply (id : String) : Reply := .response ⟨200, ⟨"", [], id⟩⟩

/-- A challenge one label below `example.com.`. -/
def sampleRequest : ChallengeRequest :=
  ⟨"uid-1", "_acme-challenge.example.com.", "proof"⟩

/-- The challenge of the example: two labels below `example.com.`. -/
def deepRequest : ChallengeRequest :=
  ⟨"uid-1", "_acme-challenge.foo.example.com.", "proof"⟩

/-- A solver with an empty, initialised table. -/
def emptySolver : conohaDNSProviderSolver := ⟨some (fun _ => none)⟩

/-- A solver whose table holds the entry `(d1, r1)` for `uid-1`. -/
def oneEntrySolver : conohaDNSProviderSolver :=
  ⟨some (Function.update (fun _ => none) "uid-1" (some ⟨"d1", "r1"⟩))⟩

/-- A domain list that names `example.com.` twice, first without an identifier. -/
def dupDomains : List Domain := [⟨"example.com.", ""⟩, ⟨"example.com.", "d1"⟩]

/-- The wire on which the provider answers with the listed replies. -/
def wireOf (l : List Reply) : Wire := Wire.start (script l)

/-! ## Helper lemmas -/

theorem Wire.next_log (w : Wire) (rq : Request) (k : Nat) :
    (w.log rq).next k = w.next (k + 1) := by
  simp [Wire.next, Wire.log, Nat.add_comm k 1, Nat.add_assoc]

theorem Wire.execute_eq (w : Wire) (rq : Request) :
    w.execute rq = (w.next 0, w.log rq) := by
  simp [Wire.execute, Wire.next]

theorem getClient_failed (env : Env) (w : Wire) (err : String)
    (ha : w.next 0 = .failed err) :
    getClient env w = (.error err, w.log (tokenRequest env)) := by
  simp [getClient, Wire.execute_eq, ha]

theorem getClient_status (env : Env) (w : Wire) (ra : Response)
    (ha : w.next 0 = .response ra) (hs : ra.IsSuccess = false) :
    getClient env w
      = (.error ("GetToken StatusCode: " ++ toString ra.StatusCode),
          w.log (tokenRequest env)) := by
  simp [getClient, Wire.execute_eq, ha, hs]

theorem getClient_ok (env : Env) (w : Wire) (ra : Response)
    (ha : w.next 0 = .response ra) (hs : ra.IsSuccess = true) :
    getClient env w = (.ok (dnsClient env ra), w.log (tokenRequest env)) := by
  simp [getClient, Wire.execute_eq, ha, hs]

/-- Whatever `getClient` returns, it has sent the token request and nothing else. -/
theorem getClient_wire (env : Env) (w : Wire) :
    (getClient env w).2 = w.log (tokenRequest env) := by
  unfold getClient
  rw [Wire.execute_eq]
  cases w.next 0 with
  | failed err => rfl
  | response r => cases h : r.IsSuccess <;> simp [h]

theorem splitChars_two (sep : Char) (a b acc : List Char) (h : sep ∉ a) :
    splitChars sep 2 acc (a ++ sep :: b) = [acc.reverse ++ a, b] := by
  induction a generalizing acc with
  | nil => simp [splitChars]
  | cons c cs ih =>
    have hc : c ≠ sep := fun e => h (by simp [e])
    have hcs : sep ∉ cs := fun e => h (by simp [e])
    simp [splitChars, hc, ih (c :: acc) hcs]

/-- When `s` is `a`, a dot and `b` with no dot in `a`, `strings.SplitN(s, ".", 2)` is
`[a, b]`: its element 1 is the part of `s` after the first dot. -/
theorem SplitN_two (a b : List Char) (h : '.' ∉ a) :
    SplitN (String.mk (a ++ '.' :: b)) '.' 2 = [String.mk a, String.mk b] := by
  simp [SplitN, splitChars_two '.' a b [] h]

/-- Without a dot `strings.SplitN(s, ".", 2)` has one element only. -/
theorem splitChars_two_none (sep : Char) (a acc : List Char) (h : sep ∉ a) :
    splitChars sep 2 acc a = [acc.reverse ++ a] := by
  induction a generalizing acc with
  | nil => simp [splitChars]
  | cons c cs ih =>
    have hc : c ≠ sep := fun e => h (by simp [e])
    have hcs : sep ∉ cs := fun e => h (by simp [e])
    simp [splitChars, hc, ih (c :: acc) hcs]

theorem Wire.issued_self (w : Wire) : w.issued w = [] := by
  simp [Wire.issued]

theorem Wire.issued_log (w : Wire) (a : Request) : (w.log a).issued w = [a] := by
  simp [Wire.issued, Wire.log]

theorem Wire.issued_log_log (w : Wire) (a b : Request) :
    ((w.log a).log b).issued w = [a, b] := by
  simp [Wire.issued, Wire.log]

theorem Wire.issued_log_log_log (w : Wire) (a b c : Request) :
    (((w.log a).log b).log c).issued w = [a, b, c] := by
  simp [Wire.issued, Wire.log]

/-- The four ways in which `CleanUp` ends. -/
theorem CleanUp_cases (env : Env) (c : conohaDNSProviderSolver) (ch : ChallengeRequest)
    (w : Wire) :
    (c.lookup ch.UID = none ∧ CleanUp env c ch w = ⟨.error "no uid", c, w⟩)
    ∨ (∃ e msg, c.lookup ch.UID = some e
        ∧ CleanUp env c ch w = ⟨.error msg, c, w.log (tokenRequest env)⟩)
    ∨ (∃ e client msg, c.lookup ch.UID = some e
        ∧ CleanUp env c ch w
          = ⟨.error msg, c, (w.log (tokenRequest env)).log (deleteRequest client e)⟩)
    ∨ (∃ e client m, c.entries = some m ∧ m ch.UID = some e
        ∧ CleanUp env c ch w
          = ⟨.ok, { entries := some (Function.update m ch.UID none) },
              (w.log (tokenRequest env)).log (deleteRequest client e)⟩) := by
  unfold CleanUp
  cases hl : c.lookup ch.UID with
  | none => left; simp
  | some e =>
    right
    have hw := getClient_wire env w
    cases hg : getClient env w with
    | mk res w1 =>
      rw [hg] at hw
      simp only at hw
      subst hw
      cases res with
      | error err => left; exact ⟨e, err, rfl, rfl⟩
      | ok client =>
        right
        simp only [Wire.execute_eq]
        cases hn : (w.log (tokenRequest env)).next 0 with
        | failed err => left; exact ⟨e, client, err, rfl, rfl⟩
        | response r =>
          cases hs : r.IsSuccess with
          | false =>
            left
            exact ⟨e, client, "DeleteRecord StatusCode: " ++ toString r.StatusCode, rfl,
              by simp [hs]⟩
          | true =>
            right
            cases hm : c.entries with
            | none => simp [conohaDNSProviderSolver.lookup, hm] at hl
            | some m =>
              refine ⟨e, client, m, rfl, ?_, by simp [hs]⟩
              simpa [conohaDNSProviderSolver.lookup, hm] using hl

/-- `CleanUp` on a stored entry with a successful token and delete call. -/
theorem CleanUp_ok_eq (env : Env) (c : conohaDNSProviderSolver) (ch : ChallengeRequest)
    (w : Wire) (m : String → Option entry) (e : entry) (ra rd : Response)
    (hm : c.entries = some m) (he : m ch.UID = some e)
    (ha : w.next 0 = .response ra) (hsa : ra.IsSuccess = true)
    (hd : w.next 1 = .response rd) (hsd : rd.IsSuccess = true) :
    CleanUp env c ch w
      = ⟨.ok, { entries := some (Function.update m ch.UID none) },
          (w.log (tokenRequest env)).log (deleteRequest (dnsClient env ra) e)⟩ := by
  have hl : c.lookup ch.UID = some e := by simp [conohaDNSProviderSolver.lookup, hm, he]
  unfold CleanUp
  simp [hl, getClient_ok env w ra ha hsa, Wire.execute_eq, Wire.next_log, hd, hsd, hm]

/-- With an entry stored and a successful token call, `CleanUp` sends the token request
and the delete request for the stored entry, whatever the reply to the latter. -/
theorem CleanUp_wire_of_auth (env : Env) (c : conohaDNSProviderSolver)
    (ch : ChallengeRequest) (w : Wire) (e : entry) (ra : Response)
    (hl : c.lookup ch.UID = some e)
    (ha : w.next 0 = .response ra) (hsa : ra.IsSuccess = true) :
    (CleanUp env c ch w).wire
      = (w.log (tokenRequest env)).log (deleteRequest (dnsClient env ra) e) := by
  unfold CleanUp
  simp only [hl, getClient_ok env w ra ha hsa, Wire.execute_eq]
  cases (w.log (tokenRequest env)).next 0 with
  | failed err => rfl
  | response r =>
    cases hs : r.IsSuccess with
    | false => simp [hs]
    | true =>
      cases hm : c.entries with
      | none => simp [hs]
      | some m => simp [hs]

/-- Whenever `CleanUp` does not return `nil`, the solver is as before. -/
theorem CleanUp_solver_of_not_ok (env : Env) (c : conohaDNSProviderSolver)
    (ch : ChallengeRequest) (w : Wire) (h : (CleanUp env c ch w).outcome ≠ .ok) :
    (CleanUp env c ch w).solver = c := by
  rcases CleanUp_cases env c ch w with ⟨_, h1⟩ | ⟨_, _, _, h1⟩ | ⟨_, _, _, _, h1⟩
    | ⟨_, _, _, _, _, h1⟩
  · rw [h1]
  · rw [h1]
  · rw [h1]
  · rw [h1] at h; exact absurd rfl h

/-- No request of `CleanUp` is a domain-list call. -/
theorem CleanUp_no_domain_list (env : Env) (c : conohaDNSProviderSolver)
    (ch : ChallengeRequest) (w : Wire) :
    ∀ rq ∈ (CleanUp env c ch w).wire.issued w, rq.isDomainList = false := by
  intro rq hrq
  rcases CleanUp_cases env c ch w with ⟨_, h1⟩ | ⟨_, _, _, h1⟩ | ⟨_, _, _, _, h1⟩
    | ⟨_, _, _, _, _, h1⟩
  · rw [h1] at hrq; simp [Wire.issued_self] at hrq
  · rw [h1] at hrq
    simp only [Wire.issued_log, List.mem_singleton] at hrq
    subst hrq
    simp [Request.isDomainList, tokenRequest, Client.R]
  · rw [h1] at hrq
    simp only [Wire.issued_log_log, List.mem_cons, List.mem_singleton, List.mem_nil_iff,
      or_false] at hrq
    rcases hrq with rfl | rfl
    · simp [Request.isDomainList, tokenRequest, Client.R]
    · simp [Request.isDomainList, deleteRequest, Client.R]
  · rw [h1] at hrq
    simp only [Wire.issued_log_log, List.mem_cons, List.mem_singleton, List.mem_nil_iff,
      or_false] at hrq
    rcases hrq with rfl | rfl
    · simp [Request.isDomainList, tokenRequest, Client.R]
    · simp [Request.isDomainList, deleteRequest, Client.R]

/-- A `CleanUp` that returns `nil` leaves no entry for its UID. -/
theorem CleanUp_ok_lookup (env : Env) (c : conohaDNSProviderSolver)
    (ch : ChallengeRequest) (w : Wire) (h : (CleanUp env c ch w).outcome = .ok) :
    (CleanUp env c ch w).solver.lookup ch.UID = none := by
  rcases CleanUp_cases env c ch w with ⟨_, h1⟩ | ⟨_, _, _, h1⟩ | ⟨_, _, _, _, h1⟩
    | ⟨_, _, _, _, _, h1⟩
  · rw [h1] at h; cases h
  · rw [h1] at h; cases h
  · rw [h1] at h; cases h
  · rw [h1]; simp [conohaDNSProviderSolver.lookup]

theorem domainIDByName_of_find (b : Body) (p : String) (dm : Domain)
    (h : b.domains.find? (fun d => d.name == p) = some dm) :
    b.domainIDByName p = dm.id := by
  simp [Body.domainIDByName, h]

theorem domainIDByName_of_absent (b : Body) (p : String)
    (h : ∀ dm ∈ b.domains, dm.name ≠ p) : b.domainIDByName p = "" := by
  have hn : b.domains.find? (fun d => d.name == p) = none := by
    rw [List.find?_eq_none]
    intro dm hdm
    simpa using h dm hdm
  simp [Body.domainIDByName, hn]

/-- `Present` when `getClient` fails: the error is passed on. -/
theorem Present_auth_error (env : Env) (c : conohaDNSProviderSolver)
    (ch : ChallengeRequest) (w : Wire) (err : String)
    (h : (getClient env w).1 = .error err) :
    Present env c ch w = ⟨.error err, c, w.log (tokenRequest env)⟩ := by
  have hw := getClient_wire env w
  unfold Present
  cases hg : getClient env w with
  | mk res w1 =>
    rw [hg] at hw h
    simp only at hw h
    subst hw
    subst h
    rfl

/-- `CleanUp` on a stored entry when `getClient` fails: the error is passed on. -/
theorem CleanUp_auth_error (env : Env) (c : conohaDNSProviderSolver)
    (ch : ChallengeRequest) (w : Wire) (e : entry) (err : String)
    (hl : c.lookup ch.UID = some e) (h : (getClient env w).1 = .error err) :
    CleanUp env c ch w = ⟨.error err, c, w.log (tokenRequest env)⟩ := by
  have hw := getClient_wire env w
  unfold CleanUp
  cases hg : getClient env w with
  | mk res w1 =>
    rw [hg] at hw h
    simp only at hw h
    subst hw
    subst h
    simp [hl]

/-- `Present` up to the lookup of the domain: token and domain list succeed and the FQDN
has a second piece. -/
theorem Present_domain_not_found (env : Env) (c : conohaDNSProviderSolver)
    (ch : ChallengeRequest) (w : Wire) (ra rl : Response) (parent : String)
    (ha : w.next 0 = .response ra) (hsa : ra.IsSuccess = true)
    (hl : w.next 1 = .response rl) (hsl : rl.IsSuccess = true)
    (hp : (SplitN ch.ResolvedFQDN '.' 2)[1]? = some parent)
    (hd : rl.body.domainIDByName parent = "") :
    Present env c ch w
      = ⟨.error "domain not found", c,
          (w.log (tokenRequest env)).log (listRequest (dnsClient env ra))⟩ := by
  unfold Present
  simp [getClient_ok env w ra ha hsa, Wire.execute_eq, Wire.next_log, hl, hsl, hp, hd]

theorem Present_create_status (env : Env) (c : conohaDNSProviderSolver)
    (ch : ChallengeRequest) (w : Wire) (ra rl rc : Response) (parent : String)
    (ha : w.next 0 = .response ra) (hsa : ra.IsSuccess = true)
    (hl : w.next 1 = .response rl) (hsl : rl.IsSuccess = true)
    (hp : (SplitN ch.ResolvedFQDN '.' 2)[1]? = some parent)
    (hd : rl.body.domainIDByName parent ≠ "")
    (hc : w.next 2 = .response rc) (hsc : rc.IsSuccess = false) :
    Present env c ch w
      = ⟨.error ("CreateRecord StatusCode: " ++ toString rc.StatusCode), c,
          ((w.log (tokenRequest env)).log (listRequest (dnsClient env ra))).log
            (createRequest (dnsClient env ra) (rl.body.domainIDByName parent) ch)⟩ := by
  unfold Present
  simp [getClient_ok env w ra ha hsa, Wire.execute_eq, Wire.next_log, hl, hsl, hp, hd, hc,
    hsc]

theorem Present_ok_eq (env : Env) (c : conohaDNSProviderSolver)
    (ch : ChallengeRequest) (w : Wire) (m : String → Option entry) (ra rl rc : Response)
    (parent : String) (hm : c.entries = some m)
    (ha : w.next 0 = .response ra) (hsa : ra.IsSuccess = true)
    (hl : w.next 1 = .response rl) (hsl : rl.IsSuccess = true)
    (hp : (SplitN ch.ResolvedFQDN '.' 2)[1]? = some parent)
    (hd : rl.body.domainIDByName parent ≠ "")
    (hc : w.next 2 = .response rc) (hsc : rc.IsSuccess = true) :
    Present env c ch w
      = ⟨.ok,
          { entries := some (Function.update m ch.UID
              (some { domainID := rl.body.domainIDByName parent, recordID := rc.body.id })) },
          ((w.log (tokenRequest env)).log (listRequest (dnsClient env ra))).log
            (createRequest (dnsClient env ra) (rl.body.domainIDByName parent) ch)⟩ := by
  unfold Present
  simp [getClient_ok env w ra ha hsa, Wire.execute_eq, Wire.next_log, hl, hsl, hp, hd, hc,
    hsc, hm]

theorem Present_nil_map (env : Env) (c : conohaDNSProviderSolver)
    (ch : ChallengeRequest) (w : Wire) (ra rl rc : Response)
    (parent : String) (hm : c.entries = none)
    (ha : w.next 0 = .response ra) (hsa : ra.IsSuccess = true)
    (hl : w.next 1 = .response rl) (hsl : rl.IsSuccess = true)
    (hp : (SplitN ch.ResolvedFQDN '.' 2)[1]? = some parent)
    (hd : rl.body.domainIDByName parent ≠ "")
    (hc : w.next 2 = .response rc) (hsc : rc.IsSuccess = true) :
    Present env c ch w
      = ⟨.panic "assignment to entry in nil map", c,
          ((w.log (tokenRequest env)).log (listRequest (dnsClient env ra))).log
            (createRequest (dnsClient env ra) (rl.body.domainIDByName parent) ch)⟩ := by
  unfold Present
  simp [getClient_ok env w ra ha hsa, Wire.execute_eq, Wire.next_log, hl, hsl, hp, hd, hc,
    hsc, hm]

/-- A `Present` that returns `nil` went through all three calls with success and wrote
the entry into a map that is not `nil`. -/
theorem Present_ok_inv (env : Env) (c : conohaDNSProviderSolver)
    (ch : ChallengeRequest) (w : Wire) (h : (Present env c ch w).outcome = .ok) :
    ∃ m ra rl rc parent, c.entries = some m
      ∧ w.next 0 = .response ra ∧ ra.IsSuccess = true
      ∧ w.next 1 = .response rl ∧ rl.IsSuccess = true
      ∧ (SplitN ch.ResolvedFQDN '.' 2)[1]? = some parent
      ∧ rl.body.domainIDByName parent ≠ ""
      ∧ w.next 2 = .response rc ∧ rc.IsSuccess = true := by
  cases h0 : w.next 0 with
  | failed err =>
    rw [Present_auth_error env c ch w err (by rw [getClient_failed env w err h0])] at h
    cases h
  | response ra =>
    cases hsa : ra.IsSuccess with
    | false =>
      rw [Present_auth_error env c ch w _ (by rw [getClient_status env w ra h0 hsa])] at h
      cases h
    | true =>
      unfold Present at h
      simp only [getClient_ok env w ra h0 hsa, Wire.execute_eq, Wire.next_log] at h
      cases h1 : w.next 1 with
      | failed err => simp [h1] at h
      | response rl =>
        cases hsl : rl.IsSuccess with
        | false => simp [h1, hsl] at h
        | true =>
          cases hp : (SplitN ch.ResolvedFQDN '.' 2)[1]? with
          | none => simp [h1, hsl, hp] at h
          | some parent =>
            by_cases hd : rl.body.domainIDByName parent = ""
            · simp [h1, hsl, hp, hd] at h
            · cases h2 : w.next 2 with
              | failed err => simp [h1, hsl, hp, hd, h2, Wire.next_log] at h
              | response rc =>
                cases hsc : rc.IsSuccess with
                | false => simp [h1, hsl, hp, hd, h2, hsc, Wire.next_log] at h
                | true =>
                  cases hm : c.entries with
                  | none => simp [h1, hsl, hp, hd, h2, hsc, hm, Wire.next_log] at h
                  | some m =>
                    exact ⟨m, ra, rl, rc, parent, rfl, rfl, hsa, rfl, hsl, rfl, hd, rfl,
                      hsc⟩

/-- The second piece of `strings.SplitN(s, ".", 2)` is the part of `s` after its first
dot. -/
theorem SplitN_parent (s : String) (label rest : List Char)
    (hq : s = String.mk (label ++ '.' :: rest)) (hlab : '.' ∉ label) :
    (SplitN s '.' 2)[1]? = some (String.mk rest) := by
  rw [hq, SplitN_two label rest hlab]
  rfl

/-- Every request sent through the client of `getClient` goes to the DNS service. -/
theorem dnsClient_isDNSService (env : Env) (ra : Response) (method url : String)
    (pp : List (String × String)) (body : Payload) :
    ((dnsClient env ra).R method url pp body).isDNSService = true := by
  simp only [Request.isDNSService, Client.R, dnsClient, String.data_append,
    List.append_assoc]
  rw [List.isPrefixOf_iff_prefix]
  exact List.prefix_append _ _

/-- The solver that `main` hands to the server has a `nil` table. -/
theorem main_entries (env : Env) (c0 : conohaDNSProviderSolver) (h : main env = .ok c0) :
    c0.entries = none := by
  unfold main at h
  split at h
  · cases h
  · cases h; rfl

/-- The token request is no create-record call: its URL starts with `h`. -/
theorem tokenRequest_not_create (env : Env) : (tokenRequest env).isCreateRecord = false := by
  have hne : (tokenRequest env).url ≠ "/v1/domains/\x7bdomainID\x7d/records" := by
    intro h
    have h2 : some 'h' = some '/' := congrArg (fun s => s.data.head?) h
    cases h2
  simp [Request.isCreateRecord, hne]

/-! ## The claims -/

/-- C3: when `entries[UID] = (d, r)` and the token call and the delete call succeed,
`CleanUp` returns `nil`, sends the token request and then exactly one delete request,
`DELETE /v1/domain/{domainID}/records/{recordID}` with the stored `d` and `r` as path
parameters, and leaves the old table with the entry of the UID removed and every other
entry as it was. -/
theorem CleanUp_success (env : Env) (c : conohaDNSProviderSolver) (ch : ChallengeRequest)
    (w : Wire) (m : String → Option entry) (d r : String) (ra rd : Response)
    (hm : c.entries = some m) (he : m ch.UID = some ⟨d, r⟩)
    (ha : w.next 0 = .response ra) (hsa : ra.IsSuccess = true)
    (hd : w.next 1 = .response rd) (hsd : rd.IsSuccess = true) :
    (CleanUp env c ch w).outcome = .ok
    ∧ (CleanUp env c ch w).wire.issued w
        = [tokenRequest env, deleteRequest (dnsClient env ra) ⟨d, r⟩]
    ∧ ((CleanUp env c ch w).wire.issued w).filter Request.isDelete
        = [deleteRequest (dnsClient env ra) ⟨d, r⟩]
    ∧ (deleteRequest (dnsClient env ra) ⟨d, r⟩).method = "DELETE"
    ∧ (deleteRequest (dnsClient env ra) ⟨d, r⟩).url
        = "/v1/domain/\x7bdomainID\x7d/records/\x7brecordID\x7d"
    ∧ (deleteRequest (dnsClient env ra) ⟨d, r⟩).pathParams
        = [("domainID", d), ("recordID", r)]
    ∧ (CleanUp env c ch w).solver.entries = some (Function.update m ch.UID none)
    ∧ (CleanUp env c ch w).solver.lookup ch.UID = none
    ∧ ∀ uid, uid ≠ ch.UID → (CleanUp env c ch w).solver.lookup uid = c.lookup uid := by
  rw [CleanUp_ok_eq env c ch w m ⟨d, r⟩ ra rd hm he ha hsa hd hsd]
  refine ⟨rfl, Wire.issued_log_log _ _ _, ?_, rfl, rfl, rfl, rfl, ?_, ?_⟩
  · rw [Wire.issued_log_log]
    simp [Request.isDelete, tokenRequest, deleteRequest, Client.R]
  · simp [conohaDNSProviderSolver.lookup]
  · intro uid huid
    simp [conohaDNSProviderSolver.lookup, hm, Function.update_noteq huid]

/-- Witness of C3: the entry `(d1, r1)` of `uid-1`, a 200 token reply and a 204 delete
reply. -/
theorem CleanUp_success_witness :
    (CleanUp sampleEnv oneEntrySolver sampleRequest
        (Wire.start (script [tokenReply, statusReply 204]))).outcome = .ok
    ∧ (CleanUp sampleEnv oneEntrySolver sampleRequest
        (Wire.start (script [tokenReply, statusReply 204]))).solver.lookup "uid-1" = none :=
  have h := CleanUp_success sampleEnv oneEntrySolver sampleRequest
    (Wire.start (script [tokenReply, statusReply 204]))
    (Function.update (fun _ => none) "uid-1" (some ⟨"d1", "r1"⟩)) "d1" "r1"
    ⟨200, ⟨"tok", [], ""⟩⟩ ⟨204, ⟨"", [], ""⟩⟩ rfl (by simp [sampleRequest]) rfl (by decide)
    rfl (by decide)
  ⟨h.1, h.2.2.2.2.2.2.2.1⟩

/-- C4: when the UID has no entry (the table may also be `nil`), `CleanUp` returns the
error `no uid`, sends no request at all and leaves the solver as it was; and after a
`CleanUp` that returned `nil`, a second `CleanUp` for the same UID ends in this way, on
the solver that the first one left. -/
theorem CleanUp_unknown_uid :
    (∀ (env : Env) (c : conohaDNSProviderSolver) (ch : ChallengeRequest) (w : Wire),
      c.lookup ch.UID = none →
        (CleanUp env c ch w).outcome = .error "no uid"
        ∧ (CleanUp env c ch w).wire = w
        ∧ (CleanUp env c ch w).wire.issued w = []
        ∧ (CleanUp env c ch w).solver = c)
    ∧ (∀ (env : Env) (c : conohaDNSProviderSolver) (ch ch2 : ChallengeRequest)
        (w w2 : Wire),
      (CleanUp env c ch w).outcome = .ok → ch2.UID = ch.UID →
        (CleanUp env (CleanUp env c ch w).solver ch2 w2).outcome = .error "no uid"
        ∧ (CleanUp env (CleanUp env c ch w).solver ch2 w2).wire.issued w2 = []
        ∧ (CleanUp env (CleanUp env c ch w).solver ch2 w2).solver
            = (CleanUp env c ch w).solver) := by
  have key : ∀ (env : Env) (c : conohaDNSProviderSolver) (ch : ChallengeRequest)
      (w : Wire), c.lookup ch.UID = none →
      CleanUp env c ch w = ⟨.error "no uid", c, w⟩ := by
    intro env c ch w h
    unfold CleanUp
    simp [h]
  constructor
  · intro env c ch w h
    rw [key env c ch w h]
    exact ⟨rfl, rfl, Wire.issued_self w, rfl⟩
  · intro env c ch ch2 w w2 hok huid
    have hl := CleanUp_ok_lookup env c ch w hok
    rw [← huid] at hl
    rw [key env _ ch2 w2 hl]
    exact ⟨rfl, Wire.issued_self w2, rfl⟩

/-- Witness of C4: an empty table, and a second `CleanUp` after a successful one. -/
theorem CleanUp_unknown_uid_witness :
    (CleanUp sampleEnv emptySolver sampleRequest (Wire.start (script []))).outcome
        = .error "no uid"
    ∧ (CleanUp sampleEnv
        (CleanUp sampleEnv oneEntrySolver sampleRequest
          (Wire.start (script [tokenReply, statusReply 204]))).solver
        sampleRequest (Wire.start (script []))).outcome = .error "no uid" :=
  ⟨(CleanUp_unknown_uid.1 sampleEnv emptySolver sampleRequest (Wire.start (script []))
      rfl).1,
   (CleanUp_unknown_uid.2 sampleEnv oneEntrySolver sampleRequest sampleRequest
      (Wire.start (script [tokenReply, statusReply 204])) (Wire.start (script []))
      (congrArg Run.outcome (CleanUp_ok_eq sampleEnv oneEntrySolver sampleRequest
        (Wire.start (script [tokenReply, statusReply 204]))
        (Function.update (fun _ => none) "uid-1" (some ⟨"d1", "r1"⟩)) ⟨"d1", "r1"⟩
        ⟨200, ⟨"tok", [], ""⟩⟩ ⟨204, ⟨"", [], ""⟩⟩ rfl (by simp [sampleRequest]) rfl
        (by decide) rfl (by decide)))
      rfl).1⟩

/-- C5: when `entries[UID] = (d, r)` and the token call fails (in transport or by its
status) or the delete call fails (in transport or by its status), `CleanUp` returns an
error and the solver is as before; so a later `CleanUp` for the same UID whose token call
succeeds sends, after the token request, exactly one delete request, which is
`DELETE /v1/domain/{domainID}/records/{recordID}` on the DNS-service host with the same
`d` and `r` as path parameters, and no later `CleanUp` sends a domain-list request. -/
theorem CleanUp_failure_keeps_entry (env : Env) (c : conohaDNSProviderSolver)
    (ch : ChallengeRequest) (w : Wire) (m : String → Option entry) (d r : String)
    (hm : c.entries = some m) (he : m ch.UID = some ⟨d, r⟩)
    (hfail : (∃ err, w.next 0 = .failed err)
      ∨ (∃ ra, w.next 0 = .response ra ∧ ra.IsSuccess = false)
      ∨ (∃ ra err, w.next 0 = .response ra ∧ ra.IsSuccess = true
          ∧ w.next 1 = .failed err)
      ∨ (∃ ra rd, w.next 0 = .response ra ∧ ra.IsSuccess = true
          ∧ w.next 1 = .response rd ∧ rd.IsSuccess = false)) :
    (∃ msg, (CleanUp env c ch w).outcome = .error msg)
    ∧ (CleanUp env c ch w).solver = c
    ∧ (CleanUp env c ch w).solver.lookup ch.UID = some ⟨d, r⟩
    ∧ (∀ (w2 : Wire) (ra2 : Response), w2.next 0 = .response ra2 → ra2.IsSuccess = true →
        (CleanUp env (CleanUp env c ch w).solver ch w2).wire.issued w2
          = [tokenRequest env, deleteRequest (dnsClient env ra2) ⟨d, r⟩])
    ∧ (∀ (w2 : Wire), ∀ rq ∈ (CleanUp env (CleanUp env c ch w).solver ch w2).wire.issued w2,
        rq.isDomainList = false)
    ∧ (∀ (w2 : Wire) (ra2 : Response), w2.next 0 = .response ra2 → ra2.IsSuccess = true →
        (CleanUp env (CleanUp env c ch w).solver ch w2).wire.issued w2
          = [tokenRequest env,
              { method := "DELETE"
                hostURL := "https://dns-service." ++ Region env ++ ".conoha.io"
                url := "/v1/domain/\x7bdomainID\x7d/records/\x7brecordID\x7d"
                pathParams := [("domainID", d), ("recordID", r)]
                headers := [("Accept", "application/json"),
                            ("Content-Type", "application/json"),
                            ("X-Auth-Token", ra2.body.accessTokenId)]
                body := .empty }]
        ∧ ((CleanUp env (CleanUp env c ch w).solver ch w2).wire.issued w2).filter
            Request.isDelete
          = [deleteRequest (dnsClient env ra2) ⟨d, r⟩]
        ∧ (deleteRequest (dnsClient env ra2) ⟨d, r⟩).method = "DELETE"
        ∧ (deleteRequest (dnsClient env ra2) ⟨d, r⟩).url
            = "/v1/domain/\x7bdomainID\x7d/records/\x7brecordID\x7d"
        ∧ (deleteRequest (dnsClient env ra2) ⟨d, r⟩).pathParams
            = [("domainID", d), ("recordID", r)]) := by
  have hl : c.lookup ch.UID = some ⟨d, r⟩ := by
    simp [conohaDNSProviderSolver.lookup, hm, he]
  have herr : ∃ msg, (CleanUp env c ch w).outcome = .error msg := by
    rcases hfail with ⟨err, h0⟩ | ⟨ra, h0, hs⟩ | ⟨ra, err, h0, hs, h1⟩ | ⟨ra, rd, h0, hs, h1, hsd⟩
    · exact ⟨err, by
        rw [CleanUp_auth_error env c ch w _ err hl (by rw [getClient_failed env w err h0])]⟩
    · exact ⟨_, by
        rw [CleanUp_auth_error env c ch w _ _ hl (by rw [getClient_status env w ra h0 hs])]⟩
    · refine ⟨err, ?_⟩
      unfold CleanUp
      simp [hl, getClient_ok env w ra h0 hs, Wire.execute_eq, Wire.next_log, h1]
    · refine ⟨"DeleteRecord StatusCode: " ++ toString rd.StatusCode, ?_⟩
      unfold CleanUp
      simp [hl, getClient_ok env w ra h0 hs, Wire.execute_eq, Wire.next_log, h1, hsd]
  have hsame : (CleanUp env c ch w).solver = c := by
    apply CleanUp_solver_of_not_ok
    rcases herr with ⟨msg, hmsg⟩
    rw [hmsg]
    exact fun h => Outcome.noConfusion h
  refine ⟨herr, hsame, ?_, ?_, ?_, ?_⟩
  · rw [hsame]; exact hl
  · intro w2 ra2 h0 hs
    rw [hsame, CleanUp_wire_of_auth env c ch w2 ⟨d, r⟩ ra2 hl h0 hs]
    exact Wire.issued_log_log _ _ _
  · intro w2
    exact CleanUp_no_domain_list env _ ch w2
  · intro w2 ra2 h0 hs
    rw [hsame, CleanUp_wire_of_auth env c ch w2 ⟨d, r⟩ ra2 hl h0 hs, Wire.issued_log_log]
    refine ⟨rfl, ?_, rfl, rfl, rfl⟩
    simp [Request.isDelete, tokenRequest, deleteRequest, Client.R]

/-- Witness of C5: the delete call is answered with status 500; the solver keeps the
entry, and the retry sends the delete request for `d1` and `r1`. -/
theorem CleanUp_failure_keeps_entry_witness :
    (CleanUp sampleEnv oneEntrySolver sampleRequest
        (Wire.start (script [tokenReply, statusReply 500]))).solver = oneEntrySolver
    ∧ ((CleanUp sampleEnv
          (CleanUp sampleEnv oneEntrySolver sampleRequest
            (Wire.start (script [tokenReply, statusReply 500]))).solver
          sampleRequest (wireOf [tokenReply, statusReply 204])).wire.issued
        (wireOf [tokenReply, statusReply 204])).filter Request.isDelete
      = [deleteRequest (dnsClient sampleEnv ⟨200, ⟨"tok", [], ""⟩⟩) ⟨"d1", "r1"⟩] :=
  have h := CleanUp_failure_keeps_entry sampleEnv oneEntrySolver sampleRequest
    (Wire.start (script [tokenReply, statusReply 500]))
    (Function.update (fun _ => none) "uid-1" (some ⟨"d1", "r1"⟩)) "d1" "r1"
    rfl (by simp [sampleRequest])
    (Or.inr (Or.inr (Or.inr ⟨⟨200, ⟨"tok", [], ""⟩⟩, ⟨500, ⟨"", [], ""⟩⟩, rfl, by decide,
      rfl, by decide⟩)))
  ⟨h.2.1, (h.2.2.2.2.2 (wireOf [tokenReply, statusReply 204]) ⟨200, ⟨"tok", [], ""⟩⟩ rfl
    (by decide)).2.1⟩

/-- C1 (as stated, refuted): the table is initialised, the token call succeeds, the
domain list holds a domain named as the part of the FQDN after its first dot with the
identifier `d1` (and one with the identifier `""`), and the create call would succeed
with the id `r1`; yet `Present` returns `domain not found`, sends no create request and
stores nothing, because the first domain of that name has an empty identifier. -/
theorem Present_success_counterexample :
    emptySolver.entries = some (fun _ => none)
    ∧ sampleRequest.ResolvedFQDN
        = String.mk ("_acme-challenge".data ++ '.' :: "example.com.".data)
    ∧ '.' ∉ "_acme-challenge".data
    ∧ (wireOf [tokenReply, domainsReply dupDomains, recordReply "r1"]).next 0 = tokenReply
    ∧ (wireOf [tokenReply, domainsReply dupDomains, recordReply "r1"]).next 1
        = domainsReply dupDomains
    ∧ (wireOf [tokenReply, domainsReply dupDomains, recordReply "r1"]).next 2
        = recordReply "r1"
    ∧ (⟨"example.com.", "d1"⟩ : Domain) ∈ dupDomains
    ∧ (⟨"example.com.", ""⟩ : Domain) ∈ dupDomains
    ∧ (Present sampleEnv emptySolver sampleRequest
        (wireOf [tokenReply, domainsReply dupDomains, recordReply "r1"])).outcome
        = .error "domain not found"
    ∧ (Present sampleEnv emptySolver sampleRequest
        (wireOf [tokenReply, domainsReply dupDomains, recordReply "r1"])).solver.lookup
          "uid-1" = none
    ∧ ((Present sampleEnv emptySolver sampleRequest
        (wireOf [tokenReply, domainsReply dupDomains, recordReply "r1"])).wire.issued
          (wireOf [tokenReply, domainsReply dupDomains, recordReply "r1"])).length = 2 := by
  have hP := Present_domain_not_found sampleEnv emptySolver sampleRequest
    (wireOf [tokenReply, domainsReply dupDomains, recordReply "r1"])
    ⟨200, ⟨"tok", [], ""⟩⟩ ⟨200, ⟨"", dupDomains, ""⟩⟩ "example.com." rfl (by decide) rfl
    (by decide) (by decide) (by decide)
  refine ⟨rfl, by decide, by decide, rfl, rfl, rfl, by decide, by decide, ?_, ?_, ?_⟩
  · rw [hP]
  · rw [hP]; rfl
  · rw [hP, Wire.issued_log_log]; rfl

/-- C1 (amended): when the table is initialised, the token call succeeds, the first
domain of the list whose name is the part of the FQDN after its first dot has a non-empty
identifier `d`, and the create call succeeds with the id `r`, `Present` returns `nil`
and the table is the old one with `entries[UID] = (d, r)`, which replaces an earlier
entry of that UID, every other UID being as before. -/
theorem Present_success (env : Env) (c : conohaDNSProviderSolver) (ch : ChallengeRequest)
    (w : Wire) (m : String → Option entry) (label rest : List Char) (dm : Domain)
    (ra rl rc : Response)
    (hm : c.entries = some m)
    (hq : ch.ResolvedFQDN = String.mk (label ++ '.' :: rest)) (hlab : '.' ∉ label)
    (ha : w.next 0 = .response ra) (hsa : ra.IsSuccess = true)
    (hl : w.next 1 = .response rl) (hsl : rl.IsSuccess = true)
    (hfirst : rl.body.domains.find? (fun x => x.name == String.mk rest) = some dm)
    (hd : dm.id ≠ "")
    (hc : w.next 2 = .response rc) (hsc : rc.IsSuccess = true) :
    (Present env c ch w).outcome = .ok
    ∧ (Present env c ch w).solver.entries
        = some (Function.update m ch.UID (some ⟨dm.id, rc.body.id⟩))
    ∧ (Present env c ch w).solver.lookup ch.UID = some ⟨dm.id, rc.body.id⟩
    ∧ ∀ uid, uid ≠ ch.UID → (Present env c ch w).solver.lookup uid = c.lookup uid := by
  have hp := SplitN_parent ch.ResolvedFQDN label rest hq hlab
  have hid := domainIDByName_of_find rl.body (String.mk rest) dm hfirst
  have hne : rl.body.domainIDByName (String.mk rest) ≠ "" := by rw [hid]; exact hd
  rw [Present_ok_eq env c ch w m ra rl rc (String.mk rest) hm ha hsa hl hsl hp hne hc hsc,
    hid]
  refine ⟨rfl, rfl, ?_, ?_⟩
  · simp [conohaDNSProviderSolver.lookup]
  · intro uid huid
    simp [conohaDNSProviderSolver.lookup, hm, Function.update_noteq huid]

/-- Witness of C1 (amended): the entry `(d1, r1)` of `uid-1` is replaced by `(d2, r2)`. -/
theorem Present_success_witness :
    (Present sampleEnv oneEntrySolver sampleRequest
        (wireOf [tokenReply, domainsReply [⟨"example.com.", "d2"⟩],
          recordReply "r2"])).solver.lookup "uid-1" = some ⟨"d2", "r2"⟩ :=
  (Present_success sampleEnv oneEntrySolver sampleRequest
    (wireOf [tokenReply, domainsReply [⟨"example.com.", "d2"⟩], recordReply "r2"])
    (Function.update (fun _ => none) "uid-1" (some ⟨"d1", "r1"⟩))
    "_acme-challenge".data "example.com.".data ⟨"example.com.", "d2"⟩
    ⟨200, ⟨"tok", [], ""⟩⟩ ⟨200, ⟨"", [⟨"example.com.", "d2"⟩], ""⟩⟩ ⟨200, ⟨"", [], "r2"⟩⟩
    rfl (by decide) (by decide) rfl (by decide) rfl (by decide) (by decide) (by decide)
    rfl (by decide)).2.2.1

/-- C2 (the code at the failing input): on the solver that `main` constructs, after
`Initialize`, a `Present` whose token, domain-list and create calls all succeed panics
with `assignment to entry in nil map`: it does not return `nil` and no entry is stored,
although the create request was sent. -/
theorem Present_on_main_solver (env : Env) (c0 : conohaDNSProviderSolver)
    (ch : ChallengeRequest) (w : Wire) (label rest : List Char) (dm : Domain)
    (ra rl rc : Response)
    (hmain : main env = .ok c0)
    (hq : ch.ResolvedFQDN = String.mk (label ++ '.' :: rest)) (hlab : '.' ∉ label)
    (ha : w.next 0 = .response ra) (hsa : ra.IsSuccess = true)
    (hl : w.next 1 = .response rl) (hsl : rl.IsSuccess = true)
    (hfirst : rl.body.domains.find? (fun x => x.name == String.mk rest) = some dm)
    (hd : dm.id ≠ "")
    (hc : w.next 2 = .response rc) (hsc : rc.IsSuccess = true) :
    (Initialize c0).1 = .ok
    ∧ (Present env (Initialize c0).2 ch w).outcome = .panic "assignment to entry in nil map"
    ∧ (Present env (Initialize c0).2 ch w).outcome ≠ .ok
    ∧ (Present env (Initialize c0).2 ch w).solver.lookup ch.UID = none
    ∧ (Present env (Initialize c0).2 ch w).wire.issued w
        = [tokenRequest env, listRequest (dnsClient env ra),
            createRequest (dnsClient env ra) dm.id ch] := by
  have hp := SplitN_parent ch.ResolvedFQDN label rest hq hlab
  have hid := domainIDByName_of_find rl.body (String.mk rest) dm hfirst
  have hne : rl.body.domainIDByName (String.mk rest) ≠ "" := by rw [hid]; exact hd
  have hnil : (Initialize c0).2.entries = none := main_entries env c0 hmain
  rw [Present_nil_map env (Initialize c0).2 ch w ra rl rc (String.mk rest) hnil ha hsa hl
    hsl hp hne hc hsc, hid]
  refine ⟨rfl, rfl, fun h => Outcome.noConfusion h, ?_, Wire.issued_log_log_log _ _ _ _⟩
  simp [conohaDNSProviderSolver.lookup, hnil]

/-- Witness of C2: the first `Present` of a process started with `GROUP_NAME` set. -/
theorem Present_on_main_solver_witness :
    (Present sampleEnv (Initialize ⟨none⟩).2 sampleRequest
        (wireOf [tokenReply, domainsReply [⟨"example.com.", "d1"⟩],
          recordReply "r1"])).outcome = .panic "assignment to entry in nil map" :=
  (Present_on_main_solver sampleEnv ⟨none⟩ sampleRequest
    (wireOf [tokenReply, domainsReply [⟨"example.com.", "d1"⟩], recordReply "r1"])
    "_acme-challenge".data "example.com.".data ⟨"example.com.", "d1"⟩
    ⟨200, ⟨"tok", [], ""⟩⟩ ⟨200, ⟨"", [⟨"example.com.", "d1"⟩], ""⟩⟩ ⟨200, ⟨"", [], "r1"⟩⟩
    (by simp [main, GroupName, sampleEnv]) (by decide) (by decide) rfl (by decide) rfl
    (by decide) (by decide) (by decide) rfl (by decide)).2.1

/-- C6: when the create call is reached (token and domain list succeed, the domain is
found) and is answered with a status that is not a success, `Present` returns the error
`CreateRecord StatusCode: <status>` and the solver is exactly as before, whatever the
table was: nothing is inserted and nothing overwritten. -/
theorem Present_create_failure (env : Env) (c : conohaDNSProviderSolver)
    (ch : ChallengeRequest) (w : Wire) (label rest : List Char) (ra rl rc : Response)
    (hq : ch.ResolvedFQDN = String.mk (label ++ '.' :: rest)) (hlab : '.' ∉ label)
    (ha : w.next 0 = .response ra) (hsa : ra.IsSuccess = true)
    (hl : w.next 1 = .response rl) (hsl : rl.IsSuccess = true)
    (hd : rl.body.domainIDByName (String.mk rest) ≠ "")
    (hc : w.next 2 = .response rc) (hsc : rc.IsSuccess = false) :
    (Present env c ch w).outcome
        = .error ("CreateRecord StatusCode: " ++ toString rc.StatusCode)
    ∧ (Present env c ch w).solver = c
    ∧ (∀ uid, (Present env c ch w).solver.lookup uid = c.lookup uid)
    ∧ (Present env c ch w).wire.issued w
        = [tokenRequest env, listRequest (dnsClient env ra),
            createRequest (dnsClient env ra) (rl.body.domainIDByName (String.mk rest)) ch]
    ∧ (createRequest (dnsClient env ra) (rl.body.domainIDByName (String.mk rest))
        ch).isCreateRecord = true := by
  have hp := SplitN_parent ch.ResolvedFQDN label rest hq hlab
  rw [Present_create_status env c ch w ra rl rc (String.mk rest) ha hsa hl hsl hp hd hc hsc]
  exact ⟨rfl, rfl, fun _ => rfl, Wire.issued_log_log_log _ _ _ _,
    by simp [Request.isCreateRecord, createRequest, Client.R]⟩

/-- Witness of C6: the create call is answered with status 409 while `uid-1` has the
entry `(d1, r1)`. -/
theorem Present_create_failure_witness :
    (Present sampleEnv oneEntrySolver sampleRequest
        (wireOf [tokenReply, domainsReply [⟨"example.com.", "d2"⟩],
          statusReply 409])).solver = oneEntrySolver :=
  (Present_create_failure sampleEnv oneEntrySolver sampleRequest
    (wireOf [tokenReply, domainsReply [⟨"example.com.", "d2"⟩], statusReply 409])
    "_acme-challenge".data "example.com.".data
    ⟨200, ⟨"tok", [], ""⟩⟩ ⟨200, ⟨"", [⟨"example.com.", "d2"⟩], ""⟩⟩ ⟨409, ⟨"", [], ""⟩⟩
    (by decide) (by decide) rfl (by decide) rfl (by decide) (by decide) rfl
    (by decide)).2.1

/-- C7: when the token call and the domain-list call succeed and the list holds no
domain whose name is the part of the FQDN after its first dot, `Present` returns
`domain not found`, has sent the token and the domain-list request only (no create
request), and the solver is as before. -/
theorem Present_no_matching_domain (env : Env) (c : conohaDNSProviderSolver)
    (ch : ChallengeRequest) (w : Wire) (label rest : List Char) (ra rl : Response)
    (hq : ch.ResolvedFQDN = String.mk (label ++ '.' :: rest)) (hlab : '.' ∉ label)
    (ha : w.next 0 = .response ra) (hsa : ra.IsSuccess = true)
    (hl : w.next 1 = .response rl) (hsl : rl.IsSuccess = true)
    (hnone : ∀ dm ∈ rl.body.domains, dm.name ≠ String.mk rest) :
    (Present env c ch w).outcome = .error "domain not found"
    ∧ (Present env c ch w).wire.issued w
        = [tokenRequest env, listRequest (dnsClient env ra)]
    ∧ (∀ rq ∈ (Present env c ch w).wire.issued w, rq.isCreateRecord = false)
    ∧ (Present env c ch w).solver = c := by
  have hp := SplitN_parent ch.ResolvedFQDN label rest hq hlab
  have hd := domainIDByName_of_absent rl.body (String.mk rest) hnone
  rw [Present_domain_not_found env c ch w ra rl (String.mk rest) ha hsa hl hsl hp hd]
  refine ⟨rfl, Wire.issued_log_log _ _ _, ?_, rfl⟩
  intro rq hrq
  simp only [Wire.issued_log_log, List.mem_cons, List.mem_singleton, List.mem_nil_iff,
    or_false] at hrq
  rcases hrq with rfl | rfl
  · exact tokenRequest_not_create env
  · simp [Request.isCreateRecord, listRequest, Client.R]

/-- Witness of C7: the provider lists `example.org.` only. -/
theorem Present_no_matching_domain_witness :
    (Present sampleEnv emptySolver sampleRequest
        (wireOf [tokenReply, domainsReply [⟨"example.org.", "d9"⟩],
          recordReply "r1"])).outcome = .error "domain not found" :=
  (Present_no_matching_domain sampleEnv emptySolver sampleRequest
    (wireOf [tokenReply, domainsReply [⟨"example.org.", "d9"⟩], recordReply "r1"])
    "_acme-challenge".data "example.com.".data
    ⟨200, ⟨"tok", [], ""⟩⟩ ⟨200, ⟨"", [⟨"example.org.", "d9"⟩], ""⟩⟩
    (by decide) (by decide) rfl (by decide) rfl (by decide) (by decide)).1

/-- C8 (as stated, refuted): for the FQDN `_acme-challenge.foo.example.com.` the second
piece of the split is `foo.example.com.`, not `example.com.`; with the domain list
holding `example.com.` / `d1` only and the create reply `r1`, `Present` on an initialised
table returns `domain not found` and stores no entry for the UID. -/
theorem Present_example_counterexample :
    (SplitN deepRequest.ResolvedFQDN '.' 2)[1]? = some "foo.example.com."
    ∧ (SplitN deepRequest.ResolvedFQDN '.' 2)[1]? ≠ some "example.com."
    ∧ (Present sampleEnv emptySolver deepRequest
        (wireOf [tokenReply, domainsReply [⟨"example.com.", "d1"⟩],
          recordReply "r1"])).outcome = .error "domain not found"
    ∧ (Present sampleEnv emptySolver deepRequest
        (wireOf [tokenReply, domainsReply [⟨"example.com.", "d1"⟩],
          recordReply "r1"])).solver.lookup deepRequest.UID = none := by
  have hP := Present_domain_not_found sampleEnv emptySolver deepRequest
    (wireOf [tokenReply, domainsReply [⟨"example.com.", "d1"⟩], recordReply "r1"])
    ⟨200, ⟨"tok", [], ""⟩⟩ ⟨200, ⟨"", [⟨"example.com.", "d1"⟩], ""⟩⟩ "foo.example.com."
    rfl (by decide) rfl (by decide) (by decide) (by decide)
  refine ⟨by decide, by decide, ?_, ?_⟩
  · rw [hP]
  · rw [hP]; rfl

/-- C8 (amended): for the FQDN `_acme-challenge.foo.example.com.` the parent computed by
the split is `foo.example.com.`; on an initialised table and after a successful token
call, a domain list holding `foo.example.com.` / `d1` only and a successful create reply
with id `r1` make `Present` return `nil` with `entries[UID] = (d1, r1)`, while a domain
list holding `example.com.` / `d1` only makes it return `domain not found` with no create
request and the solver as before. -/
theorem Present_example (env : Env) (c : conohaDNSProviderSolver)
    (m : String → Option entry) (uid key : String) (w : Wire) (ra rl : Response)
    (hm : c.entries = some m)
    (ha : w.next 0 = .response ra) (hsa : ra.IsSuccess = true)
    (hl : w.next 1 = .response rl) (hsl : rl.IsSuccess = true) :
    (SplitN "_acme-challenge.foo.example.com." '.' 2)[1]? = some "foo.example.com."
    ∧ (∀ rc : Response, rl.body.domains = [⟨"foo.example.com.", "d1"⟩] →
        w.next 2 = .response rc → rc.IsSuccess = true → rc.body.id = "r1" →
        (Present env c ⟨uid, "_acme-challenge.foo.example.com.", key⟩ w).outcome = .ok
        ∧ (Present env c ⟨uid, "_acme-challenge.foo.example.com.", key⟩ w).solver.lookup uid
            = some ⟨"d1", "r1"⟩)
    ∧ (rl.body.domains = [⟨"example.com.", "d1"⟩] →
        (Present env c ⟨uid, "_acme-challenge.foo.example.com.", key⟩ w).outcome
            = .error "domain not found"
        ∧ (Present env c ⟨uid, "_acme-challenge.foo.example.com.", key⟩ w).wire.issued w
            = [tokenRequest env, listRequest (dnsClient env ra)]
        ∧ (Present env c ⟨uid, "_acme-challenge.foo.example.com.", key⟩ w).solver = c) := by
  have hp0 : (SplitN "_acme-challenge.foo.example.com." '.' 2)[1]?
      = some "foo.example.com." := by decide
  have hp : (SplitN (ChallengeRequest.mk uid "_acme-challenge.foo.example.com."
      key).ResolvedFQDN '.' 2)[1]? = some "foo.example.com." := hp0
  refine ⟨hp0, ?_, ?_⟩
  · intro rc hdom hc hsc hid
    have hd : rl.body.domainIDByName "foo.example.com." = "d1" := by
      simp [Body.domainIDByName, hdom]
    have hne : rl.body.domainIDByName "foo.example.com." ≠ "" := by rw [hd]; decide
    rw [Present_ok_eq env c _ w m ra rl rc "foo.example.com." hm ha hsa hl hsl hp hne hc
      hsc, hd, hid]
    exact ⟨rfl, by simp [conohaDNSProviderSolver.lookup]⟩
  · intro hdom
    have hd : rl.body.domainIDByName "foo.example.com." = "" := by
      simp [Body.domainIDByName, hdom]
    rw [Present_domain_not_found env c _ w ra rl "foo.example.com." ha hsa hl hsl hp hd]
    exact ⟨rfl, Wire.issued_log_log _ _ _, rfl⟩

/-- Witness of C8 (amended): the list holds `foo.example.com.` / `d1`. -/
theorem Present_example_witness :
    (Present sampleEnv emptySolver ⟨"uid-1", "_acme-challenge.foo.example.com.", "proof"⟩
        (wireOf [tokenReply, domainsReply [⟨"foo.example.com.", "d1"⟩],
          recordReply "r1"])).solver.lookup "uid-1" = some ⟨"d1", "r1"⟩ :=
  ((Present_example sampleEnv emptySolver (fun _ => none) "uid-1" "proof"
    (wireOf [tokenReply, domainsReply [⟨"foo.example.com.", "d1"⟩], recordReply "r1"])
    ⟨200, ⟨"tok", [], ""⟩⟩ ⟨200, ⟨"", [⟨"foo.example.com.", "d1"⟩], ""⟩⟩
    rfl rfl (by decide) rfl (by decide)).2.1 ⟨200, ⟨"", [], "r1"⟩⟩ rfl rfl (by decide)
    rfl).2

/-- C9 (as stated, refuted): the create call succeeds with a body that carries no id;
`Present` returns `nil` and the entry stored for the UID has the empty record id. -/
theorem Present_entry_counterexample :
    (Present sampleEnv emptySolver sampleRequest
        (wireOf [tokenReply, domainsReply [⟨"example.com.", "d1"⟩],
          recordReply ""])).outcome = .ok
    ∧ (Present sampleEnv emptySolver sampleRequest
        (wireOf [tokenReply, domainsReply [⟨"example.com.", "d1"⟩],
          recordReply ""])).solver.lookup sampleRequest.UID = some ⟨"d1", ""⟩
    ∧ (entry.mk "d1" "").recordID = "" := by
  have hP := Present_ok_eq sampleEnv emptySolver sampleRequest
    (wireOf [tokenReply, domainsReply [⟨"example.com.", "d1"⟩], recordReply ""])
    (fun _ => none) ⟨200, ⟨"tok", [], ""⟩⟩ ⟨200, ⟨"", [⟨"example.com.", "d1"⟩], ""⟩⟩
    ⟨200, ⟨"", [], ""⟩⟩ "example.com." rfl rfl (by decide) rfl (by decide) (by decide)
    (by decide) rfl (by decide)
  refine ⟨?_, ?_, rfl⟩
  · rw [hP]
  · rw [hP]
    simp [conohaDNSProviderSolver.lookup, Body.domainIDByName]

/-- C9 (amended): whenever `Present` returns `nil`, the entry then stored for the UID has
a non-empty domain id, and its record id is the `id` of the successful create reply
(which is empty when that reply carries none). -/
theorem Present_entry (env : Env) (c : conohaDNSProviderSolver) (ch : ChallengeRequest)
    (w : Wire) (h : (Present env c ch w).outcome = .ok) :
    ∃ e rc, (Present env c ch w).solver.lookup ch.UID = some e
      ∧ e.domainID ≠ ""
      ∧ w.next 2 = .response rc ∧ rc.IsSuccess = true
      ∧ e.recordID = rc.body.id := by
  obtain ⟨m, ra, rl, rc, parent, hm, ha, hsa, hl, hsl, hp, hd, hc, hsc⟩ :=
    Present_ok_inv env c ch w h
  rw [Present_ok_eq env c ch w m ra rl rc parent hm ha hsa hl hsl hp hd hc hsc]
  exact ⟨⟨rl.body.domainIDByName parent, rc.body.id⟩, rc,
    by simp [conohaDNSProviderSolver.lookup], hd, hc, hsc, rfl⟩

/-- Witness of C9 (amended): a `Present` that returns `nil`. -/
theorem Present_entry_witness :
    ∃ e rc, (Present sampleEnv emptySolver sampleRequest
        (wireOf [tokenReply, domainsReply [⟨"example.com.", "d1"⟩],
          recordReply "r1"])).solver.lookup sampleRequest.UID = some e
      ∧ e.domainID ≠ ""
      ∧ (wireOf [tokenReply, domainsReply [⟨"example.com.", "d1"⟩],
          recordReply "r1"]).next 2 = .response rc ∧ rc.IsSuccess = true
      ∧ e.recordID = rc.body.id :=
  Present_entry sampleEnv emptySolver sampleRequest
    (wireOf [tokenReply, domainsReply [⟨"example.com.", "d1"⟩], recordReply "r1"])
    (congrArg Run.outcome (Present_ok_eq sampleEnv emptySolver sampleRequest
      (wireOf [tokenReply, domainsReply [⟨"example.com.", "d1"⟩], recordReply "r1"])
      (fun _ => none) ⟨200, ⟨"tok", [], ""⟩⟩ ⟨200, ⟨"", [⟨"example.com.", "d1"⟩], ""⟩⟩
      ⟨200, ⟨"", [], "r1"⟩⟩ "example.com." rfl rfl (by decide) rfl (by decide) (by decide)
      (by decide) rfl (by decide)))

/-- C10 (as stated, refuted): with no tenant id, user name or password configured and a
provider that answers the token request with status 200, `getClient` returns a client and
no error, and `Present` goes on to the DNS service: it sends the domain-list and the
create request and returns `nil`. -/
theorem getClient_empty_credentials_counterexample :
    TenantID noCredentialsEnv = "" ∧ Username noCredentialsEnv = ""
    ∧ Password noCredentialsEnv = ""
    ∧ (getClient noCredentialsEnv
        (wireOf [tokenReply, domainsReply [⟨"example.com.", "d1"⟩], recordReply "r1"])).1
        = .ok (dnsClient noCredentialsEnv ⟨200, ⟨"tok", [], ""⟩⟩)
    ∧ (Present noCredentialsEnv emptySolver sampleRequest
        (wireOf [tokenReply, domainsReply [⟨"example.com.", "d1"⟩],
          recordReply "r1"])).outcome = .ok
    ∧ ((Present noCredentialsEnv emptySolver sampleRequest
        (wireOf [tokenReply, domainsReply [⟨"example.com.", "d1"⟩],
          recordReply "r1"])).wire.issued
        (wireOf [tokenReply, domainsReply [⟨"example.com.", "d1"⟩],
          recordReply "r1"])).filter Request.isDNSService
        = [listRequest (dnsClient noCredentialsEnv ⟨200, ⟨"tok", [], ""⟩⟩),
            createRequest (dnsClient noCredentialsEnv ⟨200, ⟨"tok", [], ""⟩⟩) "d1"
              sampleRequest] := by
  have hP := Present_ok_eq noCredentialsEnv emptySolver sampleRequest
    (wireOf [tokenReply, domainsReply [⟨"example.com.", "d1"⟩], recordReply "r1"])
    (fun _ => none) ⟨200, ⟨"tok", [], ""⟩⟩ ⟨200, ⟨"", [⟨"example.com.", "d1"⟩], ""⟩⟩
    ⟨200, ⟨"", [], "r1"⟩⟩ "example.com." rfl rfl (by decide) rfl (by decide) (by decide)
    (by decide) rfl (by decide)
  have hid : (Body.mk "" [⟨"example.com.", "d1"⟩] "").domainIDByName "example.com." = "d1" := by
    decide
  refine ⟨by decide, by decide, by decide, ?_, ?_, ?_⟩
  · rw [getClient_ok noCredentialsEnv
      (wireOf [tokenReply, domainsReply [⟨"example.com.", "d1"⟩], recordReply "r1"])
      ⟨200, ⟨"tok", [], ""⟩⟩ rfl (by decide)]
  · rw [hP]
  · rw [hP, Wire.issued_log_log_log, hid]
    have h1 : (tokenRequest noCredentialsEnv).isDNSService = false := rfl
    simp [List.filter, h1, listRequest, createRequest, dnsClient_isDNSService]

/-- C10 (amended): `getClient` does not look at the credentials.  Whatever the tenant id,
user name and password are (empty or not), it sends exactly the token request, which
carries them, and it returns an error exactly when that request fails in transport or is
answered with a status that is not a success.  Whenever it returns an error, `Present`
returns that error and so does `CleanUp` for a UID with an entry; both have sent the
token request only, which is no call to the DNS service, and the solver is as before. -/
theorem getClient_error (env : Env) (c : conohaDNSProviderSolver) (ch : ChallengeRequest)
    (w : Wire) :
    (getClient env w).2.issued w = [tokenRequest env]
    ∧ (tokenRequest env).body = .auth (TenantID env) (Username env) (Password env)
    ∧ (tokenRequest env).isDNSService = false
    ∧ ((∃ err, (getClient env w).1 = .error err)
        ↔ ((∃ err, w.next 0 = .failed err)
            ∨ ∃ r, w.next 0 = .response r ∧ r.IsSuccess = false))
    ∧ (∀ err, (getClient env w).1 = .error err →
        (Present env c ch w).outcome = .error err
        ∧ (Present env c ch w).wire.issued w = [tokenRequest env]
        ∧ (Present env c ch w).solver = c
        ∧ ∀ e, c.lookup ch.UID = some e →
            (CleanUp env c ch w).outcome = .error err
            ∧ (CleanUp env c ch w).wire.issued w = [tokenRequest env]
            ∧ (CleanUp env c ch w).solver = c) := by
  refine ⟨?_, rfl, rfl, ?_, ?_⟩
  · rw [getClient_wire]; exact Wire.issued_log _ _
  · constructor
    · rintro ⟨err, herr⟩
      cases h0 : w.next 0 with
      | failed e0 => exact Or.inl ⟨e0, rfl⟩
      | response r =>
        cases hs : r.IsSuccess with
        | false => exact Or.inr ⟨r, rfl, hs⟩
        | true => rw [getClient_ok env w r h0 hs] at herr; cases herr
    · rintro (⟨err, h0⟩ | ⟨r, h0, hs⟩)
      · exact ⟨err, by rw [getClient_failed env w err h0]⟩
      · exact ⟨_, by rw [getClient_status env w r h0 hs]⟩
  · intro err herr
    rw [Present_auth_error env c ch w err herr]
    refine ⟨rfl, Wire.issued_log _ _, rfl, ?_⟩
    intro e he
    rw [CleanUp_auth_error env c ch w e err he herr]
    exact ⟨rfl, Wire.issued_log _ _, rfl⟩

/-- Witness of C10 (amended): no credentials and a provider that answers 401. -/
theorem getClient_error_witness :
    (Present noCredentialsEnv emptySolver sampleRequest
        (wireOf [statusReply 401])).outcome
      = .error ("GetToken StatusCode: " ++ toString 401) :=
  ((getClient_error noCredentialsEnv emptySolver sampleRequest
      (wireOf [statusReply 401])).2.2.2.2
    ("GetToken StatusCode: " ++ toString 401)
    (congrArg Prod.fst (getClient_status noCredentialsEnv (wireOf [statusReply 401])
      ⟨401, ⟨"", [], ""⟩⟩ rfl (by decide)))).1

end Conoha
